import Mathlib

/-!
Verification development for the schema-driven ML request/response framework
(`flask_ml` server and client of the 2024-Hackathon-RescueBox repository).

The repository ships its test suite (`tests/test_ml_server_and_client.py`) and
packaging metadata, but the `flask_ml` package itself (the `MLServer` router,
the typed input/output models and the `MLClient`) is not part of the source
tree.  The definitions below therefore embed that missing package, modelled
from the specification's component design (§3, §4) and pinned, wherever the
repository's own tests exercise the behaviour, to the exact values those tests
assert.  JSON documents are modelled structurally, with objects as ordered
association lists of fields; numeric leaves are rationals.
-/

namespace FlaskML

/-- A structural JSON value.  Objects keep their fields in write order. -/
inductive Json where
  | null : Json
  | bool (b : Bool) : Json
  | num (q : ℚ) : Json
  | str (s : String) : Json
  | arr (items : List Json) : Json
  | obj (fields : List (String × Json)) : Json
deriving Repr

/-- Field lookup in an ordered association list of JSON object fields. -/
def lookupField (fields : List (String × Json)) (k : String) : Option Json :=
  match fields with
  | [] => none
  | (k', v) :: rest => if k' = k then some v else lookupField rest k

/-- The keys of a JSON object's field list, in order. -/
def objKeys (fields : List (String × Json)) : List String :=
  fields.map Prod.fst

/-- `hasKey j k` holds when `j` is an object with a field named `k`. -/
def Json.hasKey : Json → String → Bool
  | .obj fields, k => fields.any (fun f => f.1 = k)
  | _, _ => false

/-- Unordered equality of key sets (each side contained in the other), the
comparison the dispatcher applies between declared and received keys. -/
def keySetEq (a b : List String) : Bool :=
  a.all (fun k => b.contains k) && b.all (fun k => a.contains k)

/-! ## Type model (§3)

`TextInput{text}`, `BatchTextInput{texts}`, `FileInput{path}`,
`BatchFileInput{files}` on the input side; `TextResponse`, `FileResponse` and
their batch wrappers on the output side, discriminated by `output_type`. -/

/-- `TextInput{text: string}`. -/
structure TextInput where
  text : String
deriving Repr, DecidableEq

/-- `BatchTextInput{texts: ordered sequence of TextInput}`. -/
structure BatchTextInput where
  texts : List TextInput
deriving Repr, DecidableEq

/-- `FileInput{path: string}`. -/
structure FileInput where
  path : String
deriving Repr, DecidableEq

/-- `BatchFileInput{files: ordered sequence of FileInput}`. -/
structure BatchFileInput where
  files : List FileInput
deriving Repr, DecidableEq

/-- The declared type of one input key in a route's input shape. -/
inductive InputType where
  | text : InputType
  | batchtext : InputType
  | file : InputType
  | batchfile : InputType
deriving Repr, DecidableEq

/-- A typed input value, the result of validating one raw input. -/
inductive InputValue where
  | text (v : TextInput) : InputValue
  | batchtext (v : BatchTextInput) : InputValue
  | file (v : FileInput) : InputValue
  | batchfile (v : BatchFileInput) : InputValue
deriving Repr, DecidableEq

/-- `file_type ∈ {IMG, …}`; only the image kind is exercised. -/
inductive FileType where
  | img : FileType
deriving Repr, DecidableEq

/-- `TextResponse{title, value, subtitle?}`. -/
structure TextResponse where
  title : String
  value : String
  subtitle : Option String
deriving Repr, DecidableEq

/-- `FileResponse{title, path, file_type, subtitle?}`. -/
structure FileResponse where
  title : String
  path : String
  file_type : FileType
  subtitle : Option String
deriving Repr, DecidableEq

/-- The root output wrapper, discriminated by the `output_type` tag
("text", "batchtext", "file", "batchfile"). -/
inductive ResponseValue where
  | text (r : TextResponse) : ResponseValue
  | batchtext (texts : List TextResponse) : ResponseValue
  | file (r : FileResponse) : ResponseValue
  | batchfile (files : List FileResponse) : ResponseValue
deriving Repr, DecidableEq

/-! ## Output serialization (§4.3 step 5, §9)

The discriminant is written first, on the root wrapper and on every nested
batch item. -/

/-- Serialize an optional subtitle: absent becomes JSON `null`. -/
def serOptStr : Option String → Json
  | none => Json.null
  | some s => Json.str s

/-- Serialize a `TextResponse` with its `output_type` tag first. -/
def serTextResponse (r : TextResponse) : Json :=
  Json.obj [("output_type", Json.str "text"), ("value", Json.str r.value),
    ("title", Json.str r.title), ("subtitle", serOptStr r.subtitle)]

/-- Serialize the `file_type` discriminant. -/
def serFileType : FileType → Json
  | .img => Json.str "img"

/-- Serialize a `FileResponse` with its `output_type` tag first. -/
def serFileResponse (r : FileResponse) : Json :=
  Json.obj [("output_type", Json.str "file"), ("file_type", serFileType r.file_type),
    ("path", Json.str r.path), ("title", Json.str r.title), ("subtitle", serOptStr r.subtitle)]

/-- Serialize the handler's typed output through its tagged envelope. -/
def serializeResponse : ResponseValue → Json
  | .text r => serTextResponse r
  | .batchtext rs => Json.obj [("output_type", Json.str "batchtext"),
      ("texts", Json.arr (rs.map serTextResponse))]
  | .file r => serFileResponse r
  | .batchfile rs => Json.obj [("output_type", Json.str "batchfile"),
      ("files", Json.arr (rs.map serFileResponse))]

/-- Deserialize an optional subtitle. -/
def parseOptStr : Json → Option (Option String)
  | Json.null => some none
  | Json.str s => some (some s)
  | _ => none

/-- Deserialize a serialized `TextResponse` item. -/
def parseTextResponse (j : Json) : Option TextResponse :=
  match j with
  | Json.obj fields =>
    match lookupField fields "output_type" with
    | some (Json.str "text") =>
      match lookupField fields "value", lookupField fields "title",
          lookupField fields "subtitle" with
      | some (Json.str v), some (Json.str t), some sub =>
        (parseOptStr sub).map (fun s => TextResponse.mk t v s)
      | _, _, _ => none
    | _ => none
  | _ => none

/-- Deserialize a serialized `file_type` discriminant. -/
def parseFileType : Json → Option FileType
  | Json.str "img" => some FileType.img
  | _ => none

/-- Deserialize a serialized `FileResponse` item. -/
def parseFileResponse (j : Json) : Option FileResponse :=
  match j with
  | Json.obj fields =>
    match lookupField fields "output_type" with
    | some (Json.str "file") =>
      match lookupField fields "file_type", lookupField fields "path",
          lookupField fields "title", lookupField fields "subtitle" with
      | some ft, some (Json.str p), some (Json.str t), some sub =>
        match parseFileType ft, parseOptStr sub with
        | some f, some s => some (FileResponse.mk t p f s)
        | _, _ => none
      | _, _, _, _ => none
    | _ => none
  | _ => none

/-- Deserialize every item of a JSON array, failing on the first bad item. -/
def parseAll (f : Json → Option α) : List Json → Option (List α)
  | [] => some []
  | j :: rest =>
    match f j, parseAll f rest with
    | some a, some as => some (a :: as)
    | _, _ => none

/-- Deserialize a tagged output envelope, dispatching on `output_type`. -/
def parseResponse (j : Json) : Option ResponseValue :=
  match j with
  | Json.obj fields =>
    match lookupField fields "output_type" with
    | some (Json.str "text") => (parseTextResponse j).map ResponseValue.text
    | some (Json.str "file") => (parseFileResponse j).map ResponseValue.file
    | some (Json.str "batchtext") =>
      match lookupField fields "texts" with
      | some (Json.arr items) => (parseAll parseTextResponse items).map ResponseValue.batchtext
      | _ => none
    | some (Json.str "batchfile") =>
      match lookupField fields "files" with
      | some (Json.arr items) => (parseAll parseFileResponse items).map ResponseValue.batchfile
      | _ => none
    | _ => none
  | _ => none

theorem parseTextResponse_serTextResponse (r : TextResponse) :
    parseTextResponse (serTextResponse r) = some r := by
  cases r with
  | mk t v s => cases s <;> rfl

theorem parseFileResponse_serFileResponse (r : FileResponse) :
    parseFileResponse (serFileResponse r) = some r := by
  cases r with
  | mk t p f s => cases f <;> cases s <;> rfl

theorem parseAll_text_map_ser (rs : List TextResponse) :
    parseAll parseTextResponse (rs.map serTextResponse) = some rs := by
  induction rs with
  | nil => rfl
  | cons r rest ih =>
    simp [parseAll, parseTextResponse_serTextResponse, ih]

theorem parseAll_file_map_ser (rs : List FileResponse) :
    parseAll parseFileResponse (rs.map serFileResponse) = some rs := by
  induction rs with
  | nil => rfl
  | cons r rest ih =>
    simp [parseAll, parseFileResponse_serFileResponse, ih]

/-- Serializing a typed output and deserializing it recovers the same value. -/
theorem parseResponse_serializeResponse (rv : ResponseValue) :
    parseResponse (serializeResponse rv) = some rv := by
  cases rv with
  | text r => cases r with
    | mk t v s => cases s <;> rfl
  | batchtext rs =>
    simp [serializeResponse, parseResponse, lookupField, parseAll_text_map_ser]
  | file r => cases r with
    | mk t p f s => cases f <;> cases s <;> rfl
  | batchfile rs =>
    simp [serializeResponse, parseResponse, lookupField, parseAll_file_map_ser]

/-! ## Validation (§4.1, §4.3 step 3)

Modelled from the spec: the field-level validator of the missing `flask_ml`
package.  A raw value is checked against its declared variant recursively;
the first missing required field yields `{loc, msg: "Field required"}` and the
first wrong-kind field yields an analogous type-mismatch error (fail-fast). -/

/-- A single field-level validation error: offending field path and message. -/
structure FieldError where
  loc : List String
  msg : String
deriving Repr, DecidableEq

/-- The message reported for an absent required field. -/
def fieldRequiredMsg : String := "Field required"

/-- Validate a raw value as a `TextInput`. -/
def validateTextInput (path : List String) (j : Json) : Except FieldError TextInput :=
  match j with
  | Json.obj fields =>
    match lookupField fields "text" with
    | some (Json.str s) => Except.ok (TextInput.mk s)
    | some _ => Except.error (FieldError.mk (path ++ ["text"]) "Input should be a valid string")
    | none => Except.error (FieldError.mk (path ++ ["text"]) fieldRequiredMsg)
  | _ => Except.error (FieldError.mk path "Input should be a valid dictionary")

/-- Validate a raw value as a `FileInput`. -/
def validateFileInput (path : List String) (j : Json) : Except FieldError FileInput :=
  match j with
  | Json.obj fields =>
    match lookupField fields "path" with
    | some (Json.str s) => Except.ok (FileInput.mk s)
    | some _ => Except.error (FieldError.mk (path ++ ["path"]) "Input should be a valid string")
    | none => Except.error (FieldError.mk (path ++ ["path"]) fieldRequiredMsg)
  | _ => Except.error (FieldError.mk path "Input should be a valid dictionary")

/-- Validate the items of a batch sequence, fail-fast, tracking item indexes
in the field path. -/
def validateItems (f : List String → Json → Except FieldError α) (path : List String) :
    Nat → List Json → Except FieldError (List α)
  | _, [] => Except.ok []
  | i, j :: rest =>
    match f (path ++ [toString i]) j with
    | Except.error e => Except.error e
    | Except.ok a =>
      match validateItems f path (i + 1) rest with
      | Except.error e => Except.error e
      | Except.ok as => Except.ok (a :: as)

/-- The required top-level field of each input variant. -/
def requiredTopField : InputType → String
  | InputType.text => "text"
  | InputType.batchtext => "texts"
  | InputType.file => "path"
  | InputType.batchfile => "files"

/-- Validate a raw value against a declared input variant, recursively through
batch sub-fields, failing on the first discovered problem. -/
def validateInput (path : List String) (it : InputType) (j : Json) :
    Except FieldError InputValue :=
  match it with
  | InputType.text =>
    match validateTextInput path j with
    | Except.error e => Except.error e
    | Except.ok v => Except.ok (InputValue.text v)
  | InputType.file =>
    match validateFileInput path j with
    | Except.error e => Except.error e
    | Except.ok v => Except.ok (InputValue.file v)
  | InputType.batchtext =>
    match j with
    | Json.obj fields =>
      match lookupField fields "texts" with
      | some (Json.arr items) =>
        match validateItems validateTextInput (path ++ ["texts"]) 0 items with
        | Except.error e => Except.error e
        | Except.ok ts => Except.ok (InputValue.batchtext (BatchTextInput.mk ts))
      | some _ => Except.error (FieldError.mk (path ++ ["texts"]) "Input should be a valid list")
      | none => Except.error (FieldError.mk (path ++ ["texts"]) fieldRequiredMsg)
    | _ => Except.error (FieldError.mk path "Input should be a valid dictionary")
  | InputType.batchfile =>
    match j with
    | Json.obj fields =>
      match lookupField fields "files" with
      | some (Json.arr items) =>
        match validateItems validateFileInput (path ++ ["files"]) 0 items with
        | Except.error e => Except.error e
        | Except.ok fs => Except.ok (InputValue.batchfile (BatchFileInput.mk fs))
      | some _ => Except.error (FieldError.mk (path ++ ["files"]) "Input should be a valid list")
      | none => Except.error (FieldError.mk (path ++ ["files"]) fieldRequiredMsg)
    | _ => Except.error (FieldError.mk path "Input should be a valid dictionary")

/-- Validate every declared input key in declaration order, fail-fast on the
first error. -/
def validateInputs (shape : List (String × InputType)) (inp : List (String × Json)) :
    Except FieldError (List (String × InputValue)) :=
  match shape with
  | [] => Except.ok []
  | (k, it) :: rest =>
    match lookupField inp k with
    | none => Except.error (FieldError.mk [k] fieldRequiredMsg)
    | some v =>
      match validateInput [k] it v with
      | Except.error e => Except.error e
      | Except.ok tv =>
        match validateInputs rest inp with
        | Except.error e => Except.error e
        | Except.ok tl => Except.ok ((k, tv) :: tl)

/-! ## Parameters and task schema (§3) -/

/-- The declared primitive type of one parameter key. -/
inductive ParamType where
  | float : ParamType
  | str : ParamType
  | int : ParamType
  | bool : ParamType
deriving Repr, DecidableEq

/-- `{min, max}` range of a ranged-float parameter descriptor. -/
structure FloatRangeDescriptor where
  lo : ℚ
  hi : ℚ
deriving Repr, DecidableEq

/-- Parameter descriptor variants (task schema only): ranged float
`{min, max, default}`. -/
inductive ParameterDescriptor where
  | rangedFloat (range : FloatRangeDescriptor) (default : ℚ) : ParameterDescriptor
deriving Repr, DecidableEq

/-- The declared default carried by a parameter descriptor. -/
def ParameterDescriptor.defaultValue : ParameterDescriptor → ℚ
  | ParameterDescriptor.rangedFloat _ d => d

/-- One input entry of a task schema (label and widget kind for an input key). -/
structure InputSchema where
  key : String
  label : String
  subtitle : String
  input_type : InputType
deriving Repr, DecidableEq

/-- One parameter entry of a task schema. -/
structure ParameterSchema where
  key : String
  label : String
  subtitle : String
  value : ParameterDescriptor
deriving Repr, DecidableEq

/-- A route's human-facing task schema. -/
structure TaskSchema where
  inputs : List InputSchema
  parameters : List ParameterSchema
deriving Repr, DecidableEq

/-- The default declared by a task schema for a parameter key, if any. -/
def TaskSchema.paramDefault (ts : TaskSchema) (k : String) : Option ℚ :=
  (ts.parameters.find? (fun p => p.key = k)).map (fun p => p.value.defaultValue)

/-! ## Route registry (§3, §4.3)

Modelled from the spec: the `MLServer` route registry of the missing
`flask_ml` package.  A route binds a path to a handler, its declared
input/parameter shape, an optional task schema with display metadata, and the
optional explicit display rank passed at registration (`none` when the caller
omitted it, in which case the registered rank defaults to 0). -/

/-- A registered route record. -/
structure Route where
  path : String
  input_shape : List (String × InputType)
  parameter_shape : List (String × ParamType)
  handler : List (String × InputValue) → List (String × Json) → ResponseValue
  task_schema_func : Option TaskSchema
  short_title : String
  order : Option Nat

/-- The keys of a declared shape, in declaration order. -/
def keysOf {α : Type} (shape : List (String × α)) : List String :=
  shape.map Prod.fst

/-- The parameter keys the dispatcher checks against: the declared parameter
shape plus any task-schema-declared parameter keys. -/
def Route.declaredParamKeys (r : Route) : List String :=
  let base := keysOf r.parameter_shape
  match r.task_schema_func with
  | none => base
  | some ts => base ++ (ts.parameters.map (fun p => p.key)).filter (fun k => !(base.contains k))

/-! ## Dispatch (§4.3) -/

/-- Render a key set inside a keys-mismatch message. -/
def renderKeys (ks : List String) : String :=
  "[" ++ String.intercalate ", " ks ++ "]"

/-- The keys-mismatch message, naming the declared and the received key sets. -/
def keysMismatchMsg (declared received : List String) : String :=
  "Keys mismatch. The input schema has " ++ renderKeys declared ++
    ", request has " ++ renderKeys received ++ "."

/-- The message for a request body that is not an `{inputs, parameters}`
object. -/
def malformedEnvelopeMsg : String :=
  "The request body must be an object with exactly the keys inputs and parameters."

/-- The JSON rendering of one field-level error. -/
def fieldErrorJson (e : FieldError) : Json :=
  Json.obj [("loc", Json.arr (e.loc.map Json.str)), ("msg", Json.str e.msg)]

/-- A `400` body carrying a string error message. -/
def validationErrorStr (msg : String) : Json :=
  Json.obj [("status", Json.str "VALIDATION_ERROR"), ("error", Json.str msg)]

/-- A `400` body carrying a list of field-level errors. -/
def validationErrorList (errs : List FieldError) : Json :=
  Json.obj [("status", Json.str "VALIDATION_ERROR"),
    ("error", Json.arr (errs.map fieldErrorJson))]

/-- Parse the request envelope: an object with exactly the top-level keys
`inputs` and `parameters`, both objects. -/
def parseEnvelope (body : Json) : Option (List (String × Json) × List (String × Json)) :=
  match body with
  | Json.obj fields =>
    if keySetEq (objKeys fields) ["inputs", "parameters"] then
      match lookupField fields "inputs", lookupField fields "parameters" with
      | some (Json.obj inp), some (Json.obj par) => some (inp, par)
      | _, _ => none
    else none
  | _ => none

/-- Modelled from the spec: the per-request validator/dispatcher of the
missing `flask_ml` package (§4.3 steps 1–5).  Returns the HTTP status code
and the JSON response body. -/
def dispatch (r : Route) (body : Json) : Nat × Json :=
  match parseEnvelope body with
  | none => (400, validationErrorStr malformedEnvelopeMsg)
  | some (inp, par) =>
    if keySetEq (objKeys inp) (keysOf r.input_shape) then
      if keySetEq (objKeys par) r.declaredParamKeys then
        match validateInputs r.input_shape inp with
        | Except.ok typed => (200, serializeResponse (r.handler typed par))
        | Except.error e => (400, validationErrorList [e])
      else (400, validationErrorStr (keysMismatchMsg r.declaredParamKeys (objKeys par)))
    else (400, validationErrorStr (keysMismatchMsg (keysOf r.input_shape) (objKeys inp)))

/-! ## Introspection endpoints (§4.2, §4.4)

Modelled from the spec: the schema deriver and the per-route read-only
endpoints of the missing `flask_ml` package.  Sample values and the listing
layout are pinned to the exact documents the repository's tests
(`test_sample_payload`, `test_list_routes`) assert. -/

/-- The deterministic sample instance of one declared input variant. -/
def inputSample : InputType → Json
  | InputType.text => Json.obj [("text", Json.str "A sample piece of text")]
  | InputType.batchtext => Json.obj [("texts", Json.arr
      [Json.obj [("text", Json.str "A sample piece of text 1")],
       Json.obj [("text", Json.str "A sample piece of text 2")]])]
  | InputType.file => Json.obj [("path", Json.str "/Users/path/to/file1")]
  | InputType.batchfile => Json.obj [("files", Json.arr
      [Json.obj [("path", Json.str "/Users/path/to/file1")],
       Json.obj [("path", Json.str "/Users/path/to/file2")]])]

/-- The placeholder written into a sample for one declared parameter type:
`0.0` for numerics, the empty string for text, `false` for booleans. -/
def paramPlaceholder : ParamType → Json
  | ParamType.float => Json.num 0
  | ParamType.str => Json.str ""
  | ParamType.int => Json.num 0
  | ParamType.bool => Json.bool false

/-- The sample payload of a route's declared shape: every input key gets its
variant's sample, every parameter key gets its primitive placeholder. -/
def samplePayload (r : Route) : Json :=
  Json.obj [("inputs", Json.obj (r.input_shape.map (fun p => (p.1, inputSample p.2)))),
    ("parameters", Json.obj (r.parameter_shape.map (fun p => (p.1, paramPlaceholder p.2))))]

/-- `GET <path>/sample_payload`: status and body. -/
def samplePayloadEndpoint (r : Route) : Nat × Json :=
  (200, samplePayload r)

/-- The `$defs` entry describing `TextInput`. -/
def textInputDef : Json :=
  Json.obj [("properties", Json.obj [("text",
      Json.obj [("title", Json.str "Text"), ("type", Json.str "string")])]),
    ("required", Json.arr [Json.str "text"]),
    ("title", Json.str "TextInput"), ("type", Json.str "object")]

/-- The `$defs` entry describing `FileInput`. -/
def fileInputDef : Json :=
  Json.obj [("properties", Json.obj [("path",
      Json.obj [("title", Json.str "Path"), ("type", Json.str "string")])]),
    ("required", Json.arr [Json.str "path"]),
    ("title", Json.str "FileInput"), ("type", Json.str "object")]

/-- The `$defs` entry describing `BatchTextInput`, referencing `TextInput`. -/
def batchTextInputDef : Json :=
  Json.obj [("properties", Json.obj [("texts",
      Json.obj [("items", Json.obj [("$ref", Json.str "#/$defs/TextInput")]),
        ("title", Json.str "Texts"), ("type", Json.str "array")])]),
    ("required", Json.arr [Json.str "texts"]),
    ("title", Json.str "BatchTextInput"), ("type", Json.str "object")]

/-- The `$defs` entry describing `BatchFileInput`, referencing `FileInput`. -/
def batchFileInputDef : Json :=
  Json.obj [("properties", Json.obj [("files",
      Json.obj [("items", Json.obj [("$ref", Json.str "#/$defs/FileInput")]),
        ("title", Json.str "Files"), ("type", Json.str "array")])]),
    ("required", Json.arr [Json.str "files"]),
    ("title", Json.str "BatchFileInput"), ("type", Json.str "object")]

/-- The named nested-model definitions an input variant pulls into `$defs`. -/
def typeDefs : InputType → List (String × Json)
  | InputType.text => [("TextInput", textInputDef)]
  | InputType.batchtext => [("TextInput", textInputDef), ("BatchTextInput", batchTextInputDef)]
  | InputType.file => [("FileInput", fileInputDef)]
  | InputType.batchfile => [("FileInput", fileInputDef), ("BatchFileInput", batchFileInputDef)]

/-- Append a definition unless one with the same name is already present. -/
def addDef (acc : List (String × Json)) (kv : String × Json) : List (String × Json) :=
  if acc.any (fun p => p.1 = kv.1) then acc else acc ++ [kv]

/-- All nested-model definitions referenced by an input shape, first
occurrence kept. -/
def collectDefs (shape : List (String × InputType)) : List (String × Json) :=
  ((shape.map (fun p => typeDefs p.2)).flatten).foldl addDef []

/-- The schema name referenced by an input variant. -/
def defName : InputType → String
  | InputType.text => "TextInput"
  | InputType.batchtext => "BatchTextInput"
  | InputType.file => "FileInput"
  | InputType.batchfile => "BatchFileInput"

/-- The JSON-schema type name of a primitive parameter type. -/
def primName : ParamType → String
  | ParamType.float => "number"
  | ParamType.str => "string"
  | ParamType.int => "integer"
  | ParamType.bool => "boolean"

/-- The `properties` section of a route's structural schema. -/
def schemaProps (r : Route) : Json :=
  Json.obj [("inputs", Json.obj (r.input_shape.map (fun p =>
      (p.1, Json.obj [("$ref", Json.str ("#/$defs/" ++ defName p.2))])))),
    ("parameters", Json.obj (r.parameter_shape.map (fun p =>
      (p.1, Json.obj [("title", Json.str p.1), ("type", Json.str (primName p.2))]))))]

/-- The structural schema of `{inputs: input_shape, parameters:
parameter_shape}`; nested input models are collected into a `$defs` section. -/
def payloadSchema (r : Route) : Json :=
  if r.input_shape.isEmpty then
    Json.obj [("properties", schemaProps r),
      ("title", Json.str "RequestBody"), ("type", Json.str "object")]
  else
    Json.obj [("$defs", Json.obj (collectDefs r.input_shape)), ("properties", schemaProps r),
      ("title", Json.str "RequestBody"), ("type", Json.str "object")]

/-- `GET <path>/payload_schema`: status and body. -/
def payloadSchemaEndpoint (r : Route) : Nat × Json :=
  (200, payloadSchema r)

/-- One entry of the route directory.  Routes registered with a task schema
also carry their display rank (defaulting to 0 when none was passed), short
title and task-schema URL; routes without one omit those fields. -/
def listingEntry (r : Route) : Json :=
  match r.task_schema_func with
  | none =>
    Json.obj [("payload_schema", Json.str (r.path ++ "/payload_schema")),
      ("run_task", Json.str r.path),
      ("sample_payload", Json.str (r.path ++ "/sample_payload"))]
  | some _ =>
    Json.obj [("order", Json.num ((r.order.getD 0 : Nat) : ℚ)),
      ("payload_schema", Json.str (r.path ++ "/payload_schema")),
      ("run_task", Json.str r.path),
      ("sample_payload", Json.str (r.path ++ "/sample_payload")),
      ("short_title", Json.str r.short_title),
      ("task_schema", Json.str (r.path ++ "/task_schema"))]

/-- `GET /api/routes`: lists every registered route in registration order. -/
def listRoutes (registry : List Route) : Nat × Json :=
  (200, Json.arr (registry.map listingEntry))

/-! ## Client (§4.5)

Modelled from the spec: the `MLClient` of the missing `flask_ml` package.
The external transport is a function from the outbound JSON body to a
status-coded response. -/

/-- What the external transport hands back: status code, content type, and
the response body (already parsed where the flow consumes it as JSON). -/
structure TransportResponse where
  status_code : Nat
  content_type : String
  body : Json

/-- Whether a status code counts as success (2xx). -/
def is2xx (n : Nat) : Bool :=
  decide (200 ≤ n) && decide (n < 300)

/-- The synthesized result the client returns when a 2xx response is not
JSON, instead of raising. -/
def unknownErrorResult : Json :=
  Json.obj [("status", Json.str "Unknown error"),
    ("errors", Json.arr [Json.obj [("msg",
      Json.str "Unknown error: the server response is not JSON")]])]

/-- Normalize a transport response: non-2xx passes the body through
unchanged; 2xx JSON returns the body; 2xx non-JSON synthesizes an error. -/
def normalizeResponse (resp : TransportResponse) : Json :=
  if is2xx resp.status_code then
    if resp.content_type = "application/json" then resp.body
    else unknownErrorResult
  else resp.body

/-- `client.request(inputs, parameters)`: builds the `{inputs, parameters}`
envelope, performs one call through the transport, and normalizes the
response.  Always returns a value, never raises. -/
def clientRequest (post : Json → TransportResponse) (inputs parameters : Json) : Json :=
  normalizeResponse (post (Json.obj [("inputs", inputs), ("parameters", parameters)]))

/-! ## The routes of the repository's test fixture -/

/-- Generic lookup by key in an association list. -/
def lookupKey {α : Type} : List (String × α) → String → Option α
  | [], _ => none
  | (k', v) :: rest, k => if k' = k then some v else lookupKey rest k

/-- The `/process_text` handler of the test suite: each text becomes a
`TextResponse` titled by the input text with value `processed_text.txt`. -/
def processTextHandler (typed : List (String × InputValue))
    (_par : List (String × Json)) : ResponseValue :=
  match lookupKey typed "text_inputs" with
  | some (InputValue.batchtext b) =>
    ResponseValue.batchtext (b.texts.map (fun t => TextResponse.mk t.text "processed_text.txt" none))
  | _ => ResponseValue.batchtext []

/-- The `/process_file` handler of the test suite: each file becomes a
`FileResponse` titled by the input path with path `processed_image.img`. -/
def processFileHandler (typed : List (String × InputValue))
    (_par : List (String × Json)) : ResponseValue :=
  match lookupKey typed "file_inputs" with
  | some (InputValue.batchfile b) =>
    ResponseValue.batchfile (b.files.map (fun f =>
      FileResponse.mk f.path "processed_image.img" FileType.img none))
  | _ => ResponseValue.batchfile []

/-- The `/process_text` route of the test fixture. -/
def processTextRoute : Route :=
  Route.mk "/process_text" [("text_inputs", InputType.batchtext)] []
    processTextHandler none "" none

/-- The `/process_file` route of the test fixture. -/
def processFileRoute : Route :=
  Route.mk "/process_file" [("file_inputs", InputType.batchfile)] []
    processFileHandler none "" none

/-- The task schema of `/process_file_with_schema` in the test fixture: one
batch-file input and one ranged-float parameter with default `0.5`. -/
def demoTaskSchema : TaskSchema :=
  TaskSchema.mk [InputSchema.mk "file_inputs" "File Inputs" "" InputType.batchfile]
    [ParameterSchema.mk "param1" "Parameter 1" ""
      (ParameterDescriptor.rangedFloat (FloatRangeDescriptor.mk 0 1) (1 / 2))]

/-- The `/process_file_with_schema` route of the test fixture, registered
with a task schema and without an explicit order. -/
def processFileWithSchemaRoute : Route :=
  Route.mk "/process_file_with_schema" [("file_inputs", InputType.batchfile)]
    [("param1", ParamType.float)] processFileHandler (some demoTaskSchema) "" none

/-! ## Concrete request bodies from the repository's tests, and small getters -/

/-- The raw inputs object of the valid `/process_text` request of the tests. -/
def sampleTextInp : List (String × Json) :=
  [("text_inputs", Json.obj [("texts", Json.arr [Json.obj [("text", Json.str "Sample text")]])])]

/-- The valid `/process_text` request body of the tests. -/
def sampleTextBody : Json :=
  Json.obj [("inputs", Json.obj sampleTextInp), ("parameters", Json.obj [])]

/-- The typed value the validator produces for `sampleTextBody`. -/
def sampleTextTyped : List (String × InputValue) :=
  [("text_inputs", InputValue.batchtext (BatchTextInput.mk [TextInput.mk "Sample text"]))]

/-- The response body the tests expect for the valid `/process_text` request. -/
def expectedTextResponseJson : Json :=
  Json.obj [("output_type", Json.str "batchtext"), ("texts", Json.arr
    [Json.obj [("output_type", Json.str "text"), ("value", Json.str "processed_text.txt"),
      ("title", Json.str "Sample text"), ("subtitle", Json.null)]])]

/-- The raw inputs object of the tests' `/process_text` request with a wrong
input key. -/
def invalidKeyInp : List (String × Json) :=
  [("KEY_INVALID", Json.obj [("texts", Json.arr [Json.obj [("text", Json.str "Sample text")]])])]

/-- The tests' `/process_text` request body with a wrong input key. -/
def invalidKeyBody : Json :=
  Json.obj [("inputs", Json.obj invalidKeyInp), ("parameters", Json.obj [])]

/-- The nested object of the tests' `/process_file` request that lacks the
required `files` field. -/
def invalidNestedFields : List (String × Json) :=
  [("INVALID_KEY", Json.arr [Json.obj [("path", Json.str "/path/to/image.jpg")]])]

/-- The raw inputs object of the tests' `/process_file` request with a
missing required nested field. -/
def invalidFileInp : List (String × Json) :=
  [("file_inputs", Json.obj invalidNestedFields)]

/-- The tests' `/process_file` request body with a missing required nested
field. -/
def invalidFileBody : Json :=
  Json.obj [("inputs", Json.obj invalidFileInp), ("parameters", Json.obj [])]

/-- The `msg` of the first entry of a `400` body's `error` list. -/
def firstErrorMsg (j : Json) : Option String :=
  match j with
  | Json.obj fields =>
    match lookupField fields "error" with
    | some (Json.arr (Json.obj e :: _)) =>
      match lookupField e "msg" with
      | some (Json.str m) => some m
      | _ => none
    | _ => none
  | _ => none

/-- The `status` string of a result object. -/
def resultStatus (j : Json) : Option String :=
  match j with
  | Json.obj fields =>
    match lookupField fields "status" with
    | some (Json.str s) => some s
    | _ => none
  | _ => none

/-- The `msg` of the first entry of a client result's `errors` list. -/
def firstClientErrorMsg (j : Json) : Option String :=
  match j with
  | Json.obj fields =>
    match lookupField fields "errors" with
    | some (Json.arr (Json.obj e :: _)) =>
      match lookupField e "msg" with
      | some (Json.str m) => some m
      | _ => none
    | _ => none
  | _ => none

/-- The `run_task` field of a route-listing entry. -/
def entryRunTask (j : Json) : Option Json :=
  match j with
  | Json.obj fields => lookupField fields "run_task"
  | _ => none

/-- The value generated for parameter `k` in a route's sample payload. -/
def samplePayloadParamField (r : Route) (k : String) : Option Json :=
  match samplePayload r with
  | Json.obj fields =>
    match lookupField fields "parameters" with
    | some (Json.obj ps) => lookupField ps k
    | _ => none
  | _ => none

/-- `s` contains `sub` as a substring. -/
def strContains (s sub : String) : Prop :=
  ∃ a b, s = a ++ sub ++ b

/-- Whether an input variant is a batch (nested) type. -/
def isBatchType : InputType → Bool
  | InputType.batchtext => true
  | InputType.batchfile => true
  | _ => false

/-! ## Helper lemmas -/

theorem keysMismatchMsg_split (d r : List String) :
    keysMismatchMsg d r = "Keys mismatch." ++
      (" The input schema has " ++ (renderKeys d ++ (", request has " ++
        (renderKeys r ++ ".")))) := by
  show ((("Keys mismatch. The input schema has " ++ renderKeys d) ++ ", request has ") ++
      renderKeys r) ++ "." = _
  rw [String.append_assoc, String.append_assoc, String.append_assoc]
  rw [show ("Keys mismatch. The input schema has " : String) =
      "Keys mismatch." ++ " The input schema has " from rfl]
  rw [String.append_assoc]

theorem validateInput_obj_missing (path : List String) (it : InputType)
    (fields : List (String × Json))
    (h : lookupField fields (requiredTopField it) = none) :
    validateInput path it (Json.obj fields) =
      Except.error (FieldError.mk (path ++ [requiredTopField it]) fieldRequiredMsg) := by
  cases it
  case text =>
    simp only [requiredTopField] at h
    simp [validateInput, validateTextInput, h, requiredTopField]
  case batchtext =>
    simp only [requiredTopField] at h
    simp [validateInput, h, requiredTopField]
  case file =>
    simp only [requiredTopField] at h
    simp [validateInput, validateFileInput, h, requiredTopField]
  case batchfile =>
    simp only [requiredTopField] at h
    simp [validateInput, h, requiredTopField]

theorem lookupField_map_of_mem {β : Type} (f : β → Json) (l : List (String × β))
    (k : String) (b : β) (hmem : (k, b) ∈ l) (hnodup : (keysOf l).Nodup) :
    lookupField (l.map (fun p => (p.1, f p.2))) k = some (f b) := by
  induction l with
  | nil => cases hmem
  | cons hd tl ih =>
    rcases hd with ⟨k', b'⟩
    rw [keysOf, List.map_cons, List.nodup_cons] at hnodup
    rcases List.mem_cons.mp hmem with heq | hmem'
    · injection heq with hk hb
      subst hk
      subst hb
      simp [lookupField]
    · have hk : k' ≠ k := by
        intro hcontra
        subst hcontra
        exact hnodup.1 (List.mem_map.mpr ⟨(k', b), hmem', rfl⟩)
      rw [List.map_cons]
      simp only [lookupField, if_neg hk]
      exact ih hmem' hnodup.2

theorem entryRunTask_listingEntry (r : Route) :
    entryRunTask (listingEntry r) = some (Json.str r.path) := by
  cases r with
  | mk p ish psh hdl tsf st ord => cases tsf <;> rfl

theorem listingEntry_hasKey_order (r : Route) :
    (listingEntry r).hasKey "order" = r.task_schema_func.isSome := by
  cases r with
  | mk p ish psh hdl tsf st ord => cases tsf <;> rfl

/-! ## Claim theorems -/

/-- C1: for every request whose inputs and parameters exactly match a
registered route's declared shape, dispatch returns status 200 and the
response body is the handler's typed output serialized through its tagged
envelope; deserializing that serialization yields a structurally equal
value. -/
theorem C1_dispatch_valid (r : Route) (body : Json)
    (inp par : List (String × Json)) (typed : List (String × InputValue))
    (henv : parseEnvelope body = some (inp, par))
    (hik : keySetEq (objKeys inp) (keysOf r.input_shape) = true)
    (hpk : keySetEq (objKeys par) r.declaredParamKeys = true)
    (hval : validateInputs r.input_shape inp = Except.ok typed) :
    dispatch r body = (200, serializeResponse (r.handler typed par)) ∧
      parseResponse (serializeResponse (r.handler typed par)) = some (r.handler typed par) := by
  constructor
  · simp [dispatch, henv, hik, hpk, hval]
  · exact parseResponse_serializeResponse _

/-- C1 witness: posting the tests' valid `/process_text` body yields 200 and
the exact tagged envelope the tests assert, and that envelope deserializes
back to the handler's typed output. -/
theorem C1_witness :
    (parseEnvelope sampleTextBody = some (sampleTextInp, ([] : List (String × Json))) ∧
     keySetEq (objKeys sampleTextInp) (keysOf processTextRoute.input_shape) = true ∧
     keySetEq (objKeys ([] : List (String × Json))) processTextRoute.declaredParamKeys = true ∧
     validateInputs processTextRoute.input_shape sampleTextInp = Except.ok sampleTextTyped) ∧
    dispatch processTextRoute sampleTextBody = (200, expectedTextResponseJson) ∧
    parseResponse expectedTextResponseJson =
      some (ResponseValue.batchtext [TextResponse.mk "Sample text" "processed_text.txt" none]) := by
  have h := C1_dispatch_valid processTextRoute sampleTextBody sampleTextInp []
    sampleTextTyped rfl rfl rfl rfl
  exact ⟨⟨rfl, rfl, rfl, rfl⟩, h.1, h.2⟩

/-- C2: any request whose inputs key set or parameters key set differs from
the declared one gets status 400 with body
`{status: "VALIDATION_ERROR", error: <message>}` where the message begins
`"Keys mismatch."` and names both the declared and the received key sets. -/
theorem C2_keys_mismatch (r : Route) (body : Json)
    (inp par : List (String × Json))
    (henv : parseEnvelope body = some (inp, par))
    (hmis : keySetEq (objKeys inp) (keysOf r.input_shape) = false ∨
      (keySetEq (objKeys inp) (keysOf r.input_shape) = true ∧
        keySetEq (objKeys par) r.declaredParamKeys = false)) :
    ∃ declared received,
      dispatch r body = (400, validationErrorStr (keysMismatchMsg declared received)) ∧
      keysMismatchMsg declared received = "Keys mismatch." ++
        (" The input schema has " ++ (renderKeys declared ++ (", request has " ++
          (renderKeys received ++ ".")))) := by
  rcases hmis with hin | ⟨hin, hpar⟩
  · exact ⟨keysOf r.input_shape, objKeys inp,
      by simp [dispatch, henv, hin], keysMismatchMsg_split _ _⟩
  · exact ⟨r.declaredParamKeys, objKeys par,
      by simp [dispatch, henv, hin, hpar], keysMismatchMsg_split _ _⟩

/-- C2 witness: the tests' `/process_text` request with key `KEY_INVALID`
gets a 400 keys-mismatch error. -/
theorem C2_witness :
    (parseEnvelope invalidKeyBody = some (invalidKeyInp, ([] : List (String × Json))) ∧
     keySetEq (objKeys invalidKeyInp) (keysOf processTextRoute.input_shape) = false) ∧
    (∃ declared received,
      dispatch processTextRoute invalidKeyBody =
        (400, validationErrorStr (keysMismatchMsg declared received)) ∧
      keysMismatchMsg declared received = "Keys mismatch." ++
        (" The input schema has " ++ (renderKeys declared ++ (", request has " ++
          (renderKeys received ++ "."))))) :=
  ⟨⟨rfl, rfl⟩,
    C2_keys_mismatch processTextRoute invalidKeyBody invalidKeyInp [] rfl (Or.inl rfl)⟩

/-- C3: a request whose top-level keys match but whose first declared input
lacks its required nested field gets status 400 with an error list whose
single (fail-fast) entry carries the offending field path and
`msg = "Field required"`. -/
theorem C3_missing_required_field (r : Route) (body : Json)
    (inp par : List (String × Json)) (k : String) (it : InputType)
    (rest : List (String × InputType)) (fields : List (String × Json))
    (henv : parseEnvelope body = some (inp, par))
    (hshape : r.input_shape = (k, it) :: rest)
    (hik : keySetEq (objKeys inp) (keysOf r.input_shape) = true)
    (hpk : keySetEq (objKeys par) r.declaredParamKeys = true)
    (hv : lookupField inp k = some (Json.obj fields))
    (hmissing : lookupField fields (requiredTopField it) = none) :
    dispatch r body =
      (400, validationErrorList [FieldError.mk [k, requiredTopField it] fieldRequiredMsg]) ∧
    firstErrorMsg (dispatch r body).2 = some fieldRequiredMsg := by
  have hval : validateInputs r.input_shape inp =
      Except.error (FieldError.mk [k, requiredTopField it] fieldRequiredMsg) := by
    rw [hshape]
    simp [validateInputs, hv, validateInput_obj_missing _ _ _ hmissing]
  have hmain : dispatch r body =
      (400, validationErrorList [FieldError.mk [k, requiredTopField it] fieldRequiredMsg]) := by
    simp [dispatch, henv, hik, hpk, hval]
  exact ⟨hmain, by rw [hmain]; rfl⟩

/-- C3 witness: the tests' `/process_file` request whose nested object lacks
`files` gets a 400 whose single error entry says `Field required` at
`["file_inputs", "files"]`. -/
theorem C3_witness :
    (parseEnvelope invalidFileBody = some (invalidFileInp, ([] : List (String × Json))) ∧
     processFileRoute.input_shape = ("file_inputs", InputType.batchfile) :: [] ∧
     keySetEq (objKeys invalidFileInp) (keysOf processFileRoute.input_shape) = true ∧
     keySetEq (objKeys ([] : List (String × Json))) processFileRoute.declaredParamKeys = true ∧
     lookupField invalidFileInp "file_inputs" = some (Json.obj invalidNestedFields) ∧
     lookupField invalidNestedFields (requiredTopField InputType.batchfile) = none) ∧
    (dispatch processFileRoute invalidFileBody =
      (400, validationErrorList
        [FieldError.mk ["file_inputs", "files"] fieldRequiredMsg]) ∧
     firstErrorMsg (dispatch processFileRoute invalidFileBody).2 = some fieldRequiredMsg) :=
  ⟨⟨rfl, rfl, rfl, rfl, rfl, rfl⟩,
    C3_missing_required_field processFileRoute invalidFileBody invalidFileInp []
      "file_inputs" InputType.batchfile [] invalidNestedFields rfl rfl rfl rfl rfl rfl⟩

/-- C4 counterexample: the claim says the sample payload of a route whose
task schema declares a ranged-float parameter with default `0.5` contains
`0.5` for that parameter.  On the test fixture's `/process_file_with_schema`
route, whose task schema declares `default = 0.5` for `param1`, the sample
payload contains `0.0` — as the repository's own
`test_sample_payload_with_task_schema` asserts. -/
theorem C4_counterexample :
    demoTaskSchema.paramDefault "param1" = some ((1 : ℚ) / 2) ∧
    samplePayloadParamField processFileWithSchemaRoute "param1" = some (Json.num 0) ∧
    Json.num 0 ≠ Json.num ((1 : ℚ) / 2) := by
  refine ⟨rfl, rfl, fun h => ?_⟩
  injection h with h'
  exact absurd h' (by norm_num)

/-- C4 (amended): `sample_payload` populates every declared parameter with
the placeholder of its primitive type — `0.0` for a float — regardless of any
task-schema-declared default; declared defaults appear only in the task
schema document, never in the sample payload. -/
theorem C4_sample_placeholder (r : Route) (k : String)
    (hmem : (k, ParamType.float) ∈ r.parameter_shape)
    (hnodup : (keysOf r.parameter_shape).Nodup) :
    samplePayloadEndpoint r = (200, samplePayload r) ∧
    samplePayloadParamField r k = some (Json.num 0) := by
  refine ⟨rfl, ?_⟩
  show (match samplePayload r with
    | Json.obj fields =>
      match lookupField fields "parameters" with
      | some (Json.obj ps) => lookupField ps k
      | _ => none
    | _ => none) = some (Json.num 0)
  show lookupField (r.parameter_shape.map (fun p => (p.1, paramPlaceholder p.2))) k =
    some (Json.num 0)
  exact lookupField_map_of_mem paramPlaceholder r.parameter_shape k ParamType.float hmem hnodup

/-- C4 witness: on the test fixture's `/process_file_with_schema` route the
float parameter `param1` is sampled as `0.0`. -/
theorem C4_witness :
    (("param1", ParamType.float) ∈ processFileWithSchemaRoute.parameter_shape ∧
     (keysOf processFileWithSchemaRoute.parameter_shape).Nodup) ∧
    (samplePayloadEndpoint processFileWithSchemaRoute =
      (200, samplePayload processFileWithSchemaRoute) ∧
     samplePayloadParamField processFileWithSchemaRoute "param1" = some (Json.num 0)) :=
  ⟨⟨by simp [processFileWithSchemaRoute], by simp [processFileWithSchemaRoute, keysOf]⟩,
    C4_sample_placeholder processFileWithSchemaRoute "param1"
      (by simp [processFileWithSchemaRoute]) (by simp [processFileWithSchemaRoute, keysOf])⟩

/-- C5 counterexample: the claim says a listing entry includes an `order`
field if and only if an explicit order was supplied at registration.  The
test fixture registers `/process_file_with_schema` with no explicit order
(`order = none`), yet its listing entry carries an `order` field — as the
repository's own `test_list_routes` asserts (`"order": 0`). -/
theorem C5_counterexample :
    processFileWithSchemaRoute.order = none ∧
    (listingEntry processFileWithSchemaRoute).hasKey "order" = true :=
  ⟨rfl, rfl⟩

/-- C5 (amended): `GET /api/routes` returns 200 and lists every registered
route in registration order (the i-th listing entry's `run_task` is the i-th
registered route's path), and a listing entry includes an `order` field if
and only if a task schema was supplied for that route (the rank defaulting
to 0), omitting it otherwise. -/
theorem C5_routes_listing (registry : List Route) (i : Nat) (h : i < registry.length) :
    (listRoutes registry).1 = 200 ∧
    (listRoutes registry).2 = Json.arr (registry.map listingEntry) ∧
    (registry.map listingEntry)[i]? = some (listingEntry registry[i]) ∧
    entryRunTask (listingEntry registry[i]) = some (Json.str registry[i].path) ∧
    ((listingEntry registry[i]).hasKey "order" = true ↔
      registry[i].task_schema_func.isSome = true) := by
  refine ⟨rfl, rfl, ?_, entryRunTask_listingEntry _, ?_⟩
  · simp [List.getElem?_eq_getElem h]
  · rw [listingEntry_hasKey_order]

/-- C5 witness: the test fixture's three-route registry, at the third route
(registered with a task schema): its entry is third, names its path, and
carries an `order` field. -/
theorem C5_witness :
    2 < [processTextRoute, processFileRoute, processFileWithSchemaRoute].length ∧
    ((listRoutes [processTextRoute, processFileRoute, processFileWithSchemaRoute]).1 = 200 ∧
     (listRoutes [processTextRoute, processFileRoute, processFileWithSchemaRoute]).2 =
       Json.arr ([processTextRoute, processFileRoute, processFileWithSchemaRoute].map listingEntry) ∧
     ([processTextRoute, processFileRoute, processFileWithSchemaRoute].map listingEntry)[2]? =
       some (listingEntry [processTextRoute, processFileRoute, processFileWithSchemaRoute][2]) ∧
     entryRunTask (listingEntry [processTextRoute, processFileRoute, processFileWithSchemaRoute][2]) =
       some (Json.str [processTextRoute, processFileRoute, processFileWithSchemaRoute][2].path) ∧
     ((listingEntry [processTextRoute, processFileRoute, processFileWithSchemaRoute][2]).hasKey
        "order" = true ↔
       [processTextRoute, processFileRoute, processFileWithSchemaRoute][2].task_schema_func.isSome
         = true)) :=
  ⟨by simp, C5_routes_listing [processTextRoute, processFileRoute, processFileWithSchemaRoute] 2
    (by simp)⟩

/-- C6: whenever the transport returns a non-2xx status, the client returns
the response body unchanged — no exception, no transformation. -/
theorem C6_non2xx_passthrough (post : Json → TransportResponse) (inputs parameters : Json)
    (h : is2xx (post (Json.obj [("inputs", inputs),
      ("parameters", parameters)])).status_code = false) :
    clientRequest post inputs parameters =
      (post (Json.obj [("inputs", inputs), ("parameters", parameters)])).body := by
  simp [clientRequest, normalizeResponse, h]

/-- A transport that always answers 400 with body `{"status": "failed"}`. -/
def failedTransport : Json → TransportResponse :=
  fun _ => TransportResponse.mk 400 "application/json" (Json.obj [("status", Json.str "failed")])

/-- C6 witness: a 400 response with body `{"status": "failed"}` makes the
client return exactly `{"status": "failed"}`. -/
theorem C6_witness :
    is2xx (failedTransport (Json.obj [("inputs", Json.null),
      ("parameters", Json.null)])).status_code = false ∧
    clientRequest failedTransport Json.null Json.null =
      Json.obj [("status", Json.str "failed")] :=
  ⟨rfl, C6_non2xx_passthrough failedTransport Json.null Json.null rfl⟩

/-- C7: whenever the transport returns a 2xx status whose content type is
not JSON, the client returns (never raises) the synthesized error result:
its `status` contains "Unknown error" and its `errors[0].msg` contains
"Unknown error". -/
theorem C7_non_json_synthesized (post : Json → TransportResponse) (inputs parameters : Json)
    (h2 : is2xx (post (Json.obj [("inputs", inputs),
      ("parameters", parameters)])).status_code = true)
    (hct : (post (Json.obj [("inputs", inputs),
      ("parameters", parameters)])).content_type ≠ "application/json") :
    clientRequest post inputs parameters = unknownErrorResult ∧
    (∃ s, resultStatus unknownErrorResult = some s ∧ strContains s "Unknown error") ∧
    (∃ m, firstClientErrorMsg unknownErrorResult = some m ∧ strContains m "Unknown error") := by
  refine ⟨by simp [clientRequest, normalizeResponse, h2, hct], ?_, ?_⟩
  · exact ⟨"Unknown error", rfl, "", "", rfl⟩
  · exact ⟨"Unknown error: the server response is not JSON", rfl, "",
      ": the server response is not JSON", rfl⟩

/-- A transport that always answers 200 with a non-JSON content type. -/
def htmlTransport : Json → TransportResponse :=
  fun _ => TransportResponse.mk 200 "text/html" (Json.str "<html></html>")

/-- C7 witness: a 200 text/html response makes the client return the
synthesized unknown-error result. -/
theorem C7_witness :
    (is2xx (htmlTransport (Json.obj [("inputs", Json.null),
      ("parameters", Json.null)])).status_code = true ∧
     (htmlTransport (Json.obj [("inputs", Json.null),
      ("parameters", Json.null)])).content_type ≠ "application/json") ∧
    (clientRequest htmlTransport Json.null Json.null = unknownErrorResult ∧
     (∃ s, resultStatus unknownErrorResult = some s ∧ strContains s "Unknown error") ∧
     (∃ m, firstClientErrorMsg unknownErrorResult = some m ∧
        strContains m "Unknown error")) :=
  ⟨⟨rfl, by decide⟩,
    C7_non_json_synthesized htmlTransport Json.null Json.null rfl (by decide)⟩

/-- C8: sample payload generation is a pure function of the route's shape —
any two evaluations on the same route produce identical output. -/
theorem C8_sample_deterministic (r₁ r₂ : Route) (h : r₁ = r₂) :
    samplePayloadEndpoint r₁ = samplePayloadEndpoint r₂ :=
  congrArg samplePayloadEndpoint h

/-- C8 witness: two calls on the `/process_file` route agree. -/
theorem C8_witness :
    processFileRoute = processFileRoute ∧
    samplePayloadEndpoint processFileRoute = samplePayloadEndpoint processFileRoute :=
  ⟨rfl, C8_sample_deterministic processFileRoute processFileRoute rfl⟩

/-- C9: for every route whose declared shape contains a nested (batch) input
type, `GET <path>/payload_schema` returns 200 and the structural schema
contains a `$defs` nested-definitions section. -/
theorem C9_payload_schema_defs (r : Route) (k : String) (it : InputType)
    (hmem : (k, it) ∈ r.input_shape) (hbatch : isBatchType it = true) :
    payloadSchemaEndpoint r = (200, payloadSchema r) ∧
    (payloadSchema r).hasKey "$defs" = true := by
  refine ⟨rfl, ?_⟩
  have hne : r.input_shape.isEmpty = false := by
    cases hs : r.input_shape with
    | nil => rw [hs] at hmem; cases hmem
    | cons a l => rfl
  simp [payloadSchema, hne, Json.hasKey]

/-- C9 witness: `/process_file` declares the nested `BatchFileInput`, and its
payload schema carries a `$defs` section. -/
theorem C9_witness :
    (("file_inputs", InputType.batchfile) ∈ processFileRoute.input_shape ∧
     isBatchType InputType.batchfile = true) ∧
    (payloadSchemaEndpoint processFileRoute = (200, payloadSchema processFileRoute) ∧
     (payloadSchema processFileRoute).hasKey "$defs" = true) :=
  ⟨⟨by simp [processFileRoute], rfl⟩,
    C9_payload_schema_defs processFileRoute "file_inputs" InputType.batchfile
      (by simp [processFileRoute]) rfl⟩

/-- C10: with an empty registry, `GET /api/routes` returns 200 with an empty
list as its body. -/
theorem C10_empty_listing : listRoutes ([] : List Route) = (200, Json.arr []) :=
  rfl

end FlaskML
